import Mathlib

/-!
Shallow embedding of the data-model layer of `src/backend/app/models.py`
(lantea-store). The file defines, per entity, the validated shapes
(Create / Update / table row / Public view) together with raw payload
types in which every field is an `Option` (`none` = the field is absent
from the incoming payload) and validation functions that mirror the
pydantic field constraints declared in the source:

  * required field (no default in the source)  -> `none` is rejected;
  * field with a default                       -> `none` takes the default;
  * `min_length` / `max_length` on strings     -> length bounds;
  * `ge` on integers                           -> lower bound;
  * `Decimal` with `max_digits` / `decimal_places` -> modelled as an `Int`
    scaled to the declared number of decimal places (thousandths for
    Beverage.price, hundredths for the order prices), constrained only in
    magnitude (`natAbs < 10 ^ max_digits`); pydantic's digit counting
    ignores the sign, so no sign constraint arises from these fields.

UUIDs are modelled as `Nat`.  `EmailStr`'s format check is performed by an
external library and no claim depends on it, so emails are plain strings
with the declared `max_length`; uniqueness is a store-level property below.
Persistence-level behaviour (cascade delete, unique-email conflict, the
exclude-unset partial-update application and the registration handler) is
not part of `models.py`; those operations are modelled from the spec and
say so in their doc comments.
-/

namespace LanteaStore

/-- Length check for a required string field with only `max_length`. -/
def strOk (maxLen : Nat) (s : String) : Bool :=
  s.length ≤ maxLen

/-- Length check for a string field with `min_length` and `max_length`. -/
def strOkMin (minLen maxLen : Nat) (s : String) : Bool :=
  minLen ≤ s.length && s.length ≤ maxLen

/-- Length check for an optional string field (`none` is allowed). -/
def optStrOk (maxLen : Nat) : Option String → Bool
  | none => true
  | some s => s.length ≤ maxLen

/-- Pydantic `Decimal(max_digits = m)` at a fixed scale: the scaled integer
has at most `m` digits; the sign is not counted, so negatives pass. -/
def decimalOk (maxDigits : Nat) (n : Int) : Bool :=
  n.natAbs < 10 ^ maxDigits

/- ## User shapes (`UserBase`, `UserCreate`, `UserRegister`, `User`, `UserPublic`) -/

/-- `UserCreate(UserBase)`: email (≤255), is_active (default True),
is_superuser (default False), full_name (optional, ≤255), password (8..40). -/
structure UserCreate where
  email : String
  is_active : Bool
  is_superuser : Bool
  full_name : Option String
  password : String

/-- `UserRegister`: only email, password and full_name. -/
structure UserRegister where
  email : String
  password : String
  full_name : Option String

/-- `User(UserBase, table=True)`: table row, adds `id` and `hashed_password`. -/
structure User where
  id : Nat
  email : String
  is_active : Bool
  is_superuser : Bool
  full_name : Option String
  hashed_password : String

/-- `UserPublic(UserBase)`: email, is_active, is_superuser, full_name, id. -/
structure UserPublic where
  email : String
  is_active : Bool
  is_superuser : Bool
  full_name : Option String
  id : Nat

/-- Serialisation of a `User` row to its `UserPublic` view: exactly the
`UserBase` fields plus `id`; `hashed_password` has no counterpart field. -/
def userToPublic (u : User) : UserPublic :=
  { email := u.email
    is_active := u.is_active
    is_superuser := u.is_superuser
    full_name := u.full_name
    id := u.id }

/-- Modelled from the spec: the registration handler is not in `src/` (only
the `UserRegister` shape is).  Per the spec the self-registration payload
carries only email, password and full_name; the remaining `UserCreate`
fields take the `UserBase` defaults declared in the source
(`is_active = True`, `is_superuser = False`). -/
def registerUser (r : UserRegister) : UserCreate :=
  { email := r.email
    is_active := true
    is_superuser := false
    full_name := r.full_name
    password := r.password }

/- ## Item shapes (`ItemBase`, `ItemCreate`, `Item`) -/

/-- Raw `ItemCreate` payload: `none` = field absent. -/
structure ItemCreateRaw where
  title : Option String
  description : Option String

/-- Validated `ItemCreate(ItemBase)`: title (1..255), description (≤255). -/
structure ItemCreate where
  title : String
  description : Option String

/-- Validation of an `ItemCreate` payload: `title` is required with
`min_length=1, max_length=255`; `description` is optional with
`max_length=255`. -/
def validateItemCreate (r : ItemCreateRaw) : Option ItemCreate :=
  match r.title with
  | none => none
  | some t =>
    if strOkMin 1 255 t && optStrOk 255 r.description then
      some { title := t, description := r.description }
    else none

/-- `Item(ItemBase, table=True)`: the table class re-declares
`title: str = Field(max_length=255)` (no `min_length`), and adds `id` and
the `owner_id` foreign key (`ondelete="CASCADE"`). -/
structure Item where
  id : Nat
  title : String
  description : Option String
  owner_id : Nat

/-- Field constraints of the `Item` table class itself: the re-declared
`title` carries only `max_length=255`; `description` keeps `max_length=255`. -/
def itemRowOk (i : Item) : Bool :=
  strOk 255 i.title && optStrOk 255 i.description

/- ## Beverage shapes (`BeverageBase`, `BeverageCreate`, `BeverageUpdate`, `Beverage`) -/

/-- Raw `BeverageCreate` payload.  `price` is in thousandths
(`decimal_places=3`). -/
structure BeverageCreateRaw where
  name : Option String
  description : Option String
  price : Option Int
  inventory : Option Int

/-- Validated `BeverageCreate(BeverageBase)`: name (1..255), description
(≤255), price (Decimal, max_digits=5, decimal_places=3, default 0),
inventory (int, ge=0, required). -/
structure BeverageCreate where
  name : String
  description : Option String
  price : Int
  inventory : Int

/-- Validation of a `BeverageCreate` payload: `name` and `inventory` are
required, `price` defaults to 0; the price constraint is only
`max_digits=5, decimal_places=3` (no lower bound), `inventory` needs
`ge=0`. -/
def validateBeverageCreate (r : BeverageCreateRaw) : Option BeverageCreate :=
  match r.name, r.inventory with
  | some n, some inv =>
    let p := r.price.getD 0
    if strOkMin 1 255 n && optStrOk 255 r.description && decimalOk 5 p
        && decide (0 ≤ inv) then
      some { name := n, description := r.description, price := p, inventory := inv }
    else none
  | _, _ => none

/-- Raw `BeverageUpdate` payload. -/
structure BeverageUpdateRaw where
  name : Option String
  description : Option String
  price : Option Int
  inventory : Option Int

/-- Validated `BeverageUpdate(BeverageBase)`: `name` optional (default None,
1..255 when present), `description` optional, `price` default 0
(max_digits=5, decimal_places=3), `inventory` optional (default None,
ge=0 when present). -/
structure BeverageUpdate where
  name : Option String
  description : Option String
  price : Int
  inventory : Option Int

/-- Validation of a `BeverageUpdate` payload: every field has a default in
the source, so an empty payload validates. -/
def validateBeverageUpdate (r : BeverageUpdateRaw) : Option BeverageUpdate :=
  let p := r.price.getD 0
  if (match r.name with
      | none => true
      | some n => strOkMin 1 255 n)
      && optStrOk 255 r.description && decimalOk 5 p
      && (match r.inventory with
          | none => true
          | some inv => decide (0 ≤ inv)) then
    some { name := r.name, description := r.description, price := p, inventory := r.inventory }
  else none

/-- `Beverage(BeverageBase, table=True)`: table row, adds `id`. -/
structure Beverage where
  id : Nat
  name : String
  description : Option String
  price : Int
  inventory : Int

/-- Modelled from the spec: the update handler is not in `src/` (only the
`BeverageUpdate` shape is).  Per the spec, partial mutation leaves unset
fields unchanged: after validation, exactly the fields present in the raw
payload overwrite the stored row. -/
def applyBeverageUpdate (b : Beverage) (r : BeverageUpdateRaw) : Option Beverage :=
  match validateBeverageUpdate r with
  | none => none
  | some _ =>
    some { b with
      name := r.name.getD b.name
      description :=
        match r.description with
        | none => b.description
        | some d => some d
      price := r.price.getD b.price
      inventory := r.inventory.getD b.inventory }

/- ## Order shapes (`OrderBase`, `OrderUpdate`, `Order`) -/

/-- Raw `OrderUpdate` payload.  `total_price` is in hundredths
(`decimal_places=2`). -/
structure OrderUpdateRaw where
  user_id : Option Nat
  total_price : Option Int
  status : Option String

/-- Validated `OrderUpdate(OrderBase)`: only `status` is re-declared with
`default=None`; `user_id` is inherited from `OrderBase` with no default
(required), `total_price` is inherited with default 0
(max_digits=10, decimal_places=2). -/
structure OrderUpdate where
  user_id : Nat
  total_price : Int
  status : Option String

/-- Validation of an `OrderUpdate` payload: `user_id` is required (inherited
`Field(foreign_key="user.id", nullable=False)`, no default); `total_price`
defaults to 0; `status` defaults to None with `max_length=50`. -/
def validateOrderUpdate (r : OrderUpdateRaw) : Option OrderUpdate :=
  match r.user_id with
  | none => none
  | some uid =>
    let tp := r.total_price.getD 0
    if decimalOk 10 tp
        && (match r.status with
            | none => true
            | some st => strOk 50 st) then
      some { user_id := uid, total_price := tp, status := r.status }
    else none

/-- `Order(OrderBase, table=True)`: table row, adds `id`; `status` default
"pending". -/
structure Order where
  id : Nat
  user_id : Nat
  total_price : Int
  status : String

/-- Modelled from the spec: the update handler is not in `src/` (only the
`OrderUpdate` shape is).  Per the spec, partial mutation leaves unset
fields unchanged: after validation, exactly the fields present in the raw
payload overwrite the stored row. -/
def applyOrderUpdate (o : Order) (r : OrderUpdateRaw) : Option Order :=
  match validateOrderUpdate r with
  | none => none
  | some _ =>
    some { o with
      user_id := r.user_id.getD o.user_id
      total_price := r.total_price.getD o.total_price
      status := r.status.getD o.status }

/- ## OrderDetail shapes (`OrderDetailBase`, `OrderDetailCreate`, `OrderDetail`) -/

/-- Raw `OrderDetailCreate` payload.  `price` is in hundredths. -/
structure OrderDetailCreateRaw where
  order_id : Option Nat
  item_id : Option Nat
  quantity : Option Int
  price : Option Int

/-- Validated `OrderDetailCreate(OrderDetailBase)`: order_id and item_id
required foreign keys, quantity (int, ge=1, required), price (Decimal,
max_digits=10, decimal_places=2, default 0). -/
structure OrderDetailCreate where
  order_id : Nat
  item_id : Nat
  quantity : Int
  price : Int

/-- Validation of an `OrderDetailCreate` payload: `order_id`, `item_id` and
`quantity` are required; `quantity` needs `ge=1`; `price` defaults to 0
with only the digit constraint. -/
def validateOrderDetailCreate (r : OrderDetailCreateRaw) : Option OrderDetailCreate :=
  match r.order_id, r.item_id, r.quantity with
  | some oid, some iid, some q =>
    let p := r.price.getD 0
    if decide (1 ≤ q) && decimalOk 10 p then
      some { order_id := oid, item_id := iid, quantity := q, price := p }
    else none
  | _, _, _ => none

/-- `OrderDetail(OrderDetailBase, table=True)`: table row, adds `id`;
`quantity` keeps the inherited `ge=1` constraint. -/
structure OrderDetail where
  id : Nat
  order_id : Nat
  item_id : Nat
  quantity : Int
  price : Int

/- ## Token shapes -/

/-- Raw `TokenPayload` payload: `none` = `sub` absent. -/
structure TokenPayloadRaw where
  sub : Option String

/-- `TokenPayload`: `sub: str | None = None` — optional and nullable, no
constraints. -/
structure TokenPayload where
  sub : Option String

/-- Validation of a `TokenPayload`: `sub` has default `None` and carries no
constraint, so every payload validates; an absent `sub` becomes `None`. -/
def validateTokenPayload (r : TokenPayloadRaw) : Option TokenPayload :=
  some { sub := r.sub }

/- ## Store-level operations (modelled from the spec) -/

/-- The persisted state: one list of rows per table. -/
structure Store where
  users : List User
  items : List Item
  orders : List Order
  orderDetails : List OrderDetail

/-- Referential integrity of the cascade chain declared in the source:
`Item.owner_id` and `Order.user_id` reference an existing user, and
`OrderDetail.order_id` references an existing order.
(`OrderDetail.item_id` is declared without an `ondelete` action and is
outside the cascade chain.) -/
def refIntegrity (s : Store) : Prop :=
  (∀ i ∈ s.items, ∃ u ∈ s.users, u.id = i.owner_id)
    ∧ (∀ o ∈ s.orders, ∃ u ∈ s.users, u.id = o.user_id)
    ∧ (∀ d ∈ s.orderDetails, ∃ o ∈ s.orders, o.id = d.order_id)

/-- Modelled from the spec: the delete handler and the store are not in
`src/`; `Order.order_details` is declared with `cascade_delete=True`, and
per the spec "deleting the Order cascades deletion of its OrderDetails". -/
def deleteOrder (s : Store) (oid : Nat) : Store :=
  { s with
    orders := s.orders.filter (fun o => !(o.id == oid))
    orderDetails := s.orderDetails.filter (fun d => !(d.order_id == oid)) }

/-- Modelled from the spec: the delete handler and the store are not in
`src/`; `User.items` and `User.orders` are declared with
`cascade_delete=True` (and `Item.owner_id` with `ondelete="CASCADE"`), and
per the spec "Deleting a User cascades deletion of its Items and Orders"
and each deleted Order cascades to its OrderDetails. -/
def deleteUser (s : Store) (uid : Nat) : Store :=
  { users := s.users.filter (fun u => !(u.id == uid))
    items := s.items.filter (fun i => !(i.owner_id == uid))
    orders := s.orders.filter (fun o => !(o.user_id == uid))
    orderDetails := s.orderDetails.filter
      (fun d => !(s.orders.any (fun o => o.user_id == uid && o.id == d.order_id))) }

/-- No two stored users share an email. -/
def uniqueEmails (s : Store) : Prop :=
  (s.users.map User.email).Nodup

/-- Modelled from the spec: the create handler and the store are not in
`src/`; `UserBase.email` is declared `Field(unique=True, index=True)` and
per the spec a duplicate email "surfaces as a conflict" (here: `none`).
Otherwise the new row (id assigned at creation, password stored hashed) is
inserted. -/
def createUser (s : Store) (c : UserCreate) (newId : Nat) (hashed : String) :
    Option Store :=
  if s.users.any (fun u => u.email == c.email) then none
  else
    some { s with
      users :=
        { id := newId
          email := c.email
          is_active := c.is_active
          is_superuser := c.is_superuser
          full_name := c.full_name
          hashed_password := hashed } :: s.users }

/- ## Concrete sample data -/

/-- A sample beverage row. -/
def demoBeverage : Beverage :=
  { id := 1, name := "Cola", description := none, price := 1500, inventory := 10 }

/-- A sample order row. -/
def demoOrder : Order :=
  { id := 20, user_id := 1, total_price := 0, status := "pending" }

/-- A sample user row. -/
def demoUser : User :=
  { id := 1
    email := "a@example.com"
    is_active := true
    is_superuser := false
    full_name := none
    hashed_password := "h" }

/-- A sample store: one user owning one item and one order with one detail. -/
def demoStore : Store :=
  { users := [demoUser]
    items := [{ id := 10, title := "t", description := none, owner_id := 1 }]
    orders := [demoOrder]
    orderDetails := [{ id := 30, order_id := 20, item_id := 10, quantity := 1, price := 0 }] }

/-- The empty store. -/
def emptyStore : Store :=
  { users := [], items := [], orders := [], orderDetails := [] }

/-- A sample `UserCreate` payload. -/
def demoUserCreate : UserCreate :=
  { email := "a@example.com"
    is_active := true
    is_superuser := false
    full_name := none
    password := "password1" }

/-- The store obtained by inserting `demoUserCreate` into the empty store. -/
def demoStore1 : Store :=
  { users := [demoUser], items := [], orders := [], orderDetails := [] }

/- ## Theorems -/

/-- Splitting a list by a Bool predicate preserves the total length. -/
theorem length_filter_not_add {α : Type} (l : List α) (p : α → Bool) :
    (l.filter (fun a => !(p a))).length + (l.filter p).length = l.length := by
  induction l with
  | nil => rfl
  | cons a t ih =>
    cases h : p a <;> simp [List.filter_cons, h] <;> omega

/-- C3: serialising a `User` to its public shape yields exactly id, email,
is_active, is_superuser and full_name, and never depends on (hence never
includes) the `hashed_password` field, whatever its value. -/
theorem userToPublic_excludes_hashed_password (u : User) (hp : String) :
    userToPublic { u with hashed_password := hp } = userToPublic u
      ∧ userToPublic u =
        { email := u.email
          is_active := u.is_active
          is_superuser := u.is_superuser
          full_name := u.full_name
          id := u.id } :=
  ⟨rfl, rfl⟩

/-- C5: the `Item` table class re-declares `title` with only
`max_length=255`, so an `Item` row with an empty title satisfies the table
model's field constraints, while `ItemCreate` (min_length 1 via `ItemBase`)
rejects the same title. -/
theorem item_table_accepts_empty_title :
    itemRowOk { id := 0, title := "", description := none, owner_id := 0 } = true
      ∧ validateItemCreate { title := some "", description := none } = none :=
  ⟨rfl, rfl⟩

/-- C6 counterexample: a `TokenPayload` payload with `sub` absent passes
validation (with `sub = none`), so validation does not require `sub` to be
present as a string. -/
theorem tokenPayload_sub_not_required :
    validateTokenPayload { sub := none } = some { sub := none } :=
  rfl

/-- C6 amended: `TokenPayload.sub` is optional and nullable with default
`None`: every payload validates, an absent `sub` becomes `None`, and a
present string is kept as-is. -/
theorem tokenPayload_sub_optional (r : TokenPayloadRaw) :
    validateTokenPayload r = some { sub := r.sub } :=
  rfl

/-- C10: the self-registration shape carries only email, password and
full_name, so the `UserCreate` built from any registration payload has
`is_superuser = false` and `is_active = true`: registration input cannot
set these flags. -/
theorem register_cannot_set_flags (r : UserRegister) :
    (registerUser r).is_superuser = false
      ∧ (registerUser r).is_active = true
      ∧ registerUser r =
        { email := r.email
          is_active := true
          is_superuser := false
          full_name := r.full_name
          password := r.password } :=
  ⟨rfl, rfl, rfl⟩

/-- C1 counterexample: an `OrderUpdate` payload omitting `user_id` is
rejected by validation — `user_id` is inherited from `OrderBase` without a
default and stays required — so not every field of `OrderUpdate` is
optional. -/
theorem orderUpdate_user_id_required :
    validateOrderUpdate { user_id := none, total_price := some 500, status := some "paid" }
      = none :=
  rfl

/-- C2 counterexample: a `BeverageCreate` payload with a negative price
(`-1.000`, scaled `-1000`) passes validation — the price fields carry only
`max_digits`/`decimal_places` constraints, no `ge=0` — so validation does
not reject negative prices. -/
theorem beverage_negative_price_accepted :
    validateBeverageCreate
        { name := some "Cola", description := none, price := some (-1000), inventory := some 0 }
      = some { name := "Cola", description := none, price := -1000, inventory := 0 }
      ∧ (-1000 : Int) < 0 :=
  ⟨rfl, by decide⟩

/-- C1 amended: under the spec's exclude-unset application, fields omitted
from an Update payload leave the stored value unchanged, and every field of
`BeverageUpdate` is optional (an empty payload validates); but
`OrderUpdate.user_id`, inherited from `OrderBase` without a default,
remains required, so not every field of every Update shape is optional. -/
theorem update_unset_fields_unchanged (b b' : Beverage) (o o' : Order)
    (rb : BeverageUpdateRaw) (ro : OrderUpdateRaw)
    (hb : applyBeverageUpdate b rb = some b') (ho : applyOrderUpdate o ro = some o') :
    (validateBeverageUpdate
        { name := none, description := none, price := none, inventory := none }).isSome = true
      ∧ (rb.name = none → b'.name = b.name)
      ∧ (rb.description = none → b'.description = b.description)
      ∧ (rb.price = none → b'.price = b.price)
      ∧ (rb.inventory = none → b'.inventory = b.inventory)
      ∧ (ro.total_price = none → o'.total_price = o.total_price)
      ∧ (ro.status = none → o'.status = o.status)
      ∧ (∀ r : OrderUpdateRaw, r.user_id = none → validateOrderUpdate r = none) := by
  refine ⟨rfl, ?_, ?_, ?_, ?_, ?_, ?_, ?_⟩
  all_goals
    first
    | (intro h
       unfold applyBeverageUpdate at hb
       cases hvb : validateBeverageUpdate rb <;> rw [hvb] at hb <;>
         simp only [Option.some.injEq, reduceCtorEq] at hb
       subst hb
       simp [h])
    | (intro h
       unfold applyOrderUpdate at ho
       cases hvo : validateOrderUpdate ro <;> rw [hvo] at ho <;>
         simp only [Option.some.injEq, reduceCtorEq] at ho
       subst ho
       simp [h])
    | (intro r hr
       unfold validateOrderUpdate
       rw [hr])

/-- C1 amended witness: the theorem at a concrete beverage and order with
all-unset (resp. user_id-only) update payloads. -/
theorem update_unset_fields_unchanged_witness :
    (validateBeverageUpdate
        { name := none, description := none, price := none, inventory := none }).isSome = true :=
  (update_unset_fields_unchanged demoBeverage demoBeverage demoOrder demoOrder
    { name := none, description := none, price := none, inventory := none }
    { user_id := some 1, total_price := none, status := none } rfl rfl).1

/-- C2 amended: price fields are constrained only by
`max_digits`/`decimal_places`: every validated `BeverageCreate` price has
fewer than 5 digits (scaled, sign ignored) and every validated
`OrderDetailCreate` price fewer than 10, but no non-negativity is enforced
and negative prices pass validation. -/
theorem validated_price_digit_bound (r : BeverageCreateRaw) (b : BeverageCreate)
    (rd : OrderDetailCreateRaw) (d : OrderDetailCreate)
    (hb : validateBeverageCreate r = some b) (hd : validateOrderDetailCreate rd = some d) :
    b.price.natAbs < 10 ^ 5 ∧ d.price.natAbs < 10 ^ 10 := by
  constructor
  · rcases r with ⟨name, desc, price, inv⟩
    unfold validateBeverageCreate at hb
    cases name <;> cases inv <;> simp only [reduceCtorEq] at hb
    split at hb
    · rename_i hcond
      simp only [Bool.and_eq_true, decimalOk, decide_eq_true_eq] at hcond
      cases hb
      exact hcond.1.2
    · exact absurd hb (by simp)
  · rcases rd with ⟨oid, iid, q, price⟩
    unfold validateOrderDetailCreate at hd
    cases oid <;> cases iid <;> cases q <;> simp only [reduceCtorEq] at hd
    split at hd
    · rename_i hcond
      simp only [Bool.and_eq_true, decimalOk, decide_eq_true_eq] at hcond
      cases hd
      exact hcond.2
    · exact absurd hd (by simp)

/-- C2 amended witness: the theorem at the negative-price beverage payload
and a quantity-1 order detail payload. -/
theorem validated_price_digit_bound_witness :
    Int.natAbs (-1000) < 10 ^ 5 :=
  (validated_price_digit_bound
    { name := some "Cola", description := none, price := some (-1000), inventory := some 0 }
    { name := "Cola", description := none, price := -1000, inventory := 0 }
    { order_id := some 1, item_id := some 1, quantity := some 1, price := none }
    { order_id := 1, item_id := 1, quantity := 1, price := 0 } rfl rfl).1

/-- C7: a Create payload whose `Item.title` or `Beverage.name` is shorter
than 1 character is rejected, and a title/name of length between 1 and 255
(other fields valid) satisfies the constraint and is accepted. -/
theorem create_rejects_short_name (t n t' : String) (d : Option String)
    (ht : t.length < 1) (hn : n.length < 1)
    (h1 : 1 ≤ t'.length) (h2 : t'.length ≤ 255) :
    validateItemCreate { title := some t, description := d } = none
      ∧ (∀ r : BeverageCreateRaw, r.name = some n → validateBeverageCreate r = none)
      ∧ validateItemCreate { title := some t', description := none }
          = some { title := t', description := none }
      ∧ validateBeverageCreate
          { name := some t', description := none, price := none, inventory := some 0 }
          = some { name := t', description := none, price := 0, inventory := 0 } := by
  have ht0 : t.length = 0 := Nat.lt_one_iff.mp ht
  have hn0 : n.length = 0 := Nat.lt_one_iff.mp hn
  refine ⟨?_, ?_, ?_, ?_⟩
  · simp [validateItemCreate, strOkMin, ht0]
  · intro r hr
    rcases r with ⟨name, desc, price, inv⟩
    cases hr
    cases inv <;> simp [validateBeverageCreate, strOkMin, hn0]
  · simp [validateItemCreate, strOkMin, optStrOk, h1, h2]
  · simp [validateBeverageCreate, strOkMin, optStrOk, decimalOk, h1, h2]

/-- C7 witness: the theorem at the empty title/name and the one-character
title "a". -/
theorem create_rejects_short_name_witness :
    validateItemCreate { title := some "a", description := none }
      = some { title := "a", description := none } :=
  (create_rejects_short_name "" "" "a" none (by decide) (by decide)
    (by decide) (by decide)).2.2.1

/-- C8: an `OrderDetailCreate` payload with quantity 0 is rejected, one
with quantity 1 (other fields valid) is accepted, and every payload that
passes validation has quantity at least 1. -/
theorem orderDetail_quantity_ge_one (r : OrderDetailCreateRaw) (d : OrderDetailCreate)
    (h : validateOrderDetailCreate r = some d) :
    1 ≤ d.quantity
      ∧ validateOrderDetailCreate
          { order_id := some 1, item_id := some 1, quantity := some 0, price := none } = none
      ∧ validateOrderDetailCreate
          { order_id := some 1, item_id := some 1, quantity := some 1, price := none }
          = some { order_id := 1, item_id := 1, quantity := 1, price := 0 } := by
  refine ⟨?_, rfl, rfl⟩
  rcases r with ⟨oid, iid, q, price⟩
  unfold validateOrderDetailCreate at h
  cases oid <;> cases iid <;> cases q <;> simp only [reduceCtorEq] at h
  split at h
  · rename_i hcond
    simp only [Bool.and_eq_true, decide_eq_true_eq] at hcond
    cases h
    exact hcond.1
  · exact absurd h (by simp)

/-- C8 witness: the theorem at the quantity-1 payload. -/
theorem orderDetail_quantity_ge_one_witness : (1 : Int) ≤ 1 :=
  (orderDetail_quantity_ge_one
    { order_id := some 1, item_id := some 1, quantity := some 1, price := none }
    { order_id := 1, item_id := 1, quantity := 1, price := 0 } rfl).1

/-- C4: deleting a User removes all of its Items and all of its Orders
(the two length equations), deleting an Order removes all of its
OrderDetails, the delete of a User also removes the OrderDetails of its
Orders, and no dangling child rows remain (referential integrity of the
cascade chain is preserved). -/
theorem deleteUser_cascade (s : Store) (uid : Nat) (h : refIntegrity s) :
    (∀ i ∈ (deleteUser s uid).items, i.owner_id ≠ uid)
      ∧ (∀ o ∈ (deleteUser s uid).orders, o.user_id ≠ uid)
      ∧ (∀ oid, ∀ d ∈ (deleteOrder s oid).orderDetails, d.order_id ≠ oid)
      ∧ (∀ d ∈ (deleteUser s uid).orderDetails,
          ∀ o ∈ s.orders, o.user_id = uid → d.order_id ≠ o.id)
      ∧ (deleteUser s uid).items.length
          + (s.items.filter (fun i => i.owner_id == uid)).length = s.items.length
      ∧ (deleteUser s uid).orders.length
          + (s.orders.filter (fun o => o.user_id == uid)).length = s.orders.length
      ∧ refIntegrity (deleteUser s uid) := by
  obtain ⟨hitems, horders, hdetails⟩ := h
  refine ⟨?_, ?_, ?_, ?_, ?_, ?_, ?_, ?_, ?_⟩
  · intro i hi
    simp only [deleteUser, List.mem_filter, Bool.not_eq_eq_eq_not, Bool.not_true,
      beq_eq_false_iff_ne, ne_eq] at hi
    exact hi.2
  · intro o ho
    simp only [deleteUser, List.mem_filter, Bool.not_eq_eq_eq_not, Bool.not_true,
      beq_eq_false_iff_ne, ne_eq] at ho
    exact ho.2
  · intro oid d hd
    simp only [deleteOrder, List.mem_filter, Bool.not_eq_eq_eq_not, Bool.not_true,
      beq_eq_false_iff_ne, ne_eq] at hd
    exact hd.2
  · intro d hd o ho huid heq
    simp only [deleteUser, List.mem_filter, Bool.not_eq_eq_eq_not, Bool.not_true,
      List.any_eq_false, Bool.and_eq_true, beq_iff_eq, not_and] at hd
    exact hd.2 o ho huid heq.symm
  · exact length_filter_not_add s.items (fun i => i.owner_id == uid)
  · exact length_filter_not_add s.orders (fun o => o.user_id == uid)
  · intro i hi
    simp only [deleteUser, List.mem_filter, Bool.not_eq_eq_eq_not, Bool.not_true,
      beq_eq_false_iff_ne, ne_eq] at hi ⊢
    obtain ⟨u, hu, huid⟩ := hitems i hi.1
    exact ⟨u, ⟨hu, by rw [huid]; exact hi.2⟩, huid⟩
  · intro o ho
    simp only [deleteUser, List.mem_filter, Bool.not_eq_eq_eq_not, Bool.not_true,
      beq_eq_false_iff_ne, ne_eq] at ho ⊢
    obtain ⟨u, hu, huid⟩ := horders o ho.1
    exact ⟨u, ⟨hu, by rw [huid]; exact ho.2⟩, huid⟩
  · intro d hd
    simp only [deleteUser, List.mem_filter, Bool.not_eq_eq_eq_not, Bool.not_true,
      List.any_eq_false, Bool.and_eq_true, beq_iff_eq, not_and,
      beq_eq_false_iff_ne, ne_eq] at hd ⊢
    obtain ⟨o, ho, hoid⟩ := hdetails d hd.1
    have hne : ¬o.user_id = uid := fun huid => hd.2 o ho huid hoid
    exact ⟨o, ⟨ho, hne⟩, hoid⟩

/-- C4 witness: the theorem at a store with one user owning one item and
one order carrying one order detail. -/
theorem deleteUser_cascade_witness : refIntegrity (deleteUser demoStore 1) :=
  (deleteUser_cascade demoStore 1
    (by refine ⟨?_, ?_, ?_⟩ <;> simp [demoStore, demoUser, demoOrder])).2.2.2.2.2.2

/-- C9: inserting a user with a fresh email succeeds; any successful
insertion preserves email uniqueness; re-inserting the same email into the
resulting store is rejected as a conflict; and deletion preserves
uniqueness — so no two stored users ever share an email. -/
theorem createUser_email_unique (s s' : Store) (c : UserCreate) (n1 n2 : Nat)
    (p1 p2 : String) (hu : uniqueEmails s) (hsucc : createUser s c n1 p1 = some s') :
    uniqueEmails s'
      ∧ createUser s' c n2 p2 = none
      ∧ (∀ uid, uniqueEmails (deleteUser s' uid))
      ∧ (∀ c0 : UserCreate, ∀ i p, (∀ u ∈ s.users, u.email ≠ c0.email) →
          (createUser s c0 i p).isSome = true) := by
  unfold createUser at hsucc
  split at hsucc
  · exact absurd hsucc (by simp)
  · rename_i hany
    rw [Bool.not_eq_true, List.any_eq_false] at hany
    cases hsucc
    have hnotmem : c.email ∉ s.users.map User.email := by
      intro hmem
      obtain ⟨u, hu', he⟩ := List.mem_map.mp hmem
      exact absurd (by simp [he] : (u.email == c.email) = true) (hany u hu')
    refine ⟨?_, ?_, ?_, ?_⟩
    · exact List.nodup_cons.mpr ⟨hnotmem, hu⟩
    · simp [createUser]
    · intro uid
      exact List.Nodup.sublist
        (List.Sublist.map User.email (List.filter_sublist _))
        (List.nodup_cons.mpr ⟨hnotmem, hu⟩)
    · intro c0 i p hfresh
      have hany0 : (s.users.any (fun u => u.email == c0.email)) = false := by
        rw [List.any_eq_false]
        intro u hu'
        simp only [beq_iff_eq]
        exact hfresh u hu'
      simp [createUser, hany0]

/-- C9 witness: the first insertion into the empty store succeeds and the
second insertion with the same email is rejected. -/
theorem createUser_email_unique_witness :
    createUser demoStore1 demoUserCreate 2 "h2" = none :=
  (createUser_email_unique emptyStore demoStore1 demoUserCreate 1 2 "h" "h2"
    (by simp [uniqueEmails, emptyStore]) rfl).2.1

end LanteaStore
